import Mathlib

/-!
Shallow embedding of the safe-wallet-web excerpt: the value formatter
`generateDataRowValue` (TxDataRow), the address-book autocomplete input
`AddressBookInput`, the sidebar `Navigation`, the transaction `SignForm`,
the owner-change `ReviewOwner` step and the social-login orchestration
`SocialWalletService`, together with theorems settling the spec claims.
-/

/-- JS `a.includes(b)`: `b` occurs as a contiguous substring of `a`. -/
def jsIncludes (s sub : String) : Bool := decide (sub.toList <:+: s.toList)

/-- JS `s.toLowerCase()` restricted to the basic-latin range, modelled
character-wise with `Char.toLower` (the inputs considered are ASCII). -/
def jsToLower (s : String) : String := ⟨s.data.map Char.toLower⟩

/-- The empty string is a substring of every string. -/
theorem jsIncludes_empty_right (s : String) : jsIncludes s "" = true := by
  simp only [jsIncludes, decide_eq_true_eq]
  exact ⟨[], s.toList, by simp⟩

/-! ## Value formatter (`generateDataRowValue`, type tag `rawData`)

Source: `TxDataRow.tsx`. The `rawData` branch renders
`{value ? hexDataLength(value) : 0} bytes` where `hexDataLength` is
ethers v5 `hexDataLength` on a string argument. -/

/-- A character matched by the `[0-9A-Fa-f]` class of the ethers
`isHexString` regex. -/
def isHexDigitChar (c : Char) : Bool :=
  (('0' ≤ c) && (c ≤ '9')) || (('a' ≤ c) && (c ≤ 'f')) || (('A' ≤ c) && (c ≤ 'F'))

/-- ethers `isHexString(value)` on a string argument: the regex
`^0x[0-9A-Fa-f]*$`. -/
def isHexString (s : String) : Bool :=
  match s.data with
  | c0 :: c1 :: rest => c0 == '0' && c1 == 'x' && rest.all isHexDigitChar
  | _ => false

/-- ethers `hexDataLength(data)` on a string argument: `null` (here `none`)
unless the string passes `isHexString` and has even length, otherwise
`(data.length - 2) / 2`. -/
def hexDataLength (s : String) : Option Nat :=
  if isHexString s && s.length % 2 == 0 then some ((s.length - 2) / 2) else none

/-- The byte count displayed by `generateDataRowValue` for the `rawData`
type tag: the JSX `{value ? hexDataLength(value) : 0}`. The empty string is
falsy in JS, so it displays `0`; `none` models `hexDataLength` returning
`null` (nothing rendered in place of the number). -/
def rawDataDisplayedBytes (value : String) : Option Nat :=
  if value = "" then some 0 else hexDataLength value

/-- C4: for every even-length hex value `0x`+digits, the displayed byte
count is half the number of hex digits, and the empty string displays 0. -/
theorem rawData_bytes_eq_half_hex_digits (ds : List Char)
    (hhex : ds.all isHexDigitChar = true) (heven : ds.length % 2 = 0) :
    rawDataDisplayedBytes ⟨'0' :: 'x' :: ds⟩ = some (ds.length / 2) ∧
    rawDataDisplayedBytes "" = some 0 := by
  refine ⟨?_, rfl⟩
  have hne : (⟨'0' :: 'x' :: ds⟩ : String) ≠ "" := by
    intro h
    have := congrArg String.data h
    simp at this
  rw [rawDataDisplayedBytes, if_neg hne]
  have hhx : isHexString ⟨'0' :: 'x' :: ds⟩ = true := by
    simp [isHexString, hhex]
  have hlen : (⟨'0' :: 'x' :: ds⟩ : String).length = ds.length + 2 := by
    simp [String.length_mk]
  rw [hexDataLength, hhx, hlen]
  have hmod : (ds.length + 2) % 2 = 0 := by omega
  simp [hmod]

/-- Witness for C4 at the concrete value `0x1234`. -/
theorem rawData_bytes_witness :
    rawDataDisplayedBytes ⟨'0' :: 'x' :: ['1', '2', '3', '4']⟩ = some 2 ∧
    rawDataDisplayedBytes "" = some 0 :=
  rawData_bytes_eq_half_hex_digits ['1', '2', '3', '4'] (by decide) (by decide)

/-! ## Address-book autocomplete (`AddressBookInput`)

Source: `AddressBookInput.tsx`. The address book is turned into options
`{ label: address, name }`; suggestions are filtered by MUI's
`createFilterOptions` with `stringify: (o) => o.name + ' ' + o.label`
(defaults: `matchFrom: 'any'`, `ignoreCase: true`, `trim: false`,
`ignoreAccents: true` — accent stripping is the identity on the
basic-latin strings modelled here); `hasVisibleOptions` counts options
whose `label` (the address) contains the typed value. -/

/-- An autocomplete option built from an address-book entry:
`label` is the address, `name` the display name. -/
structure ABOption where
  label : String
  name : String
deriving DecidableEq, Repr

/-- The `stringify` passed to `createFilterOptions`:
`option.name + ' ' + option.label`. -/
def abStringify (o : ABOption) : String := o.name ++ " " ++ o.label

/-- `abFilterOptions`: MUI `createFilterOptions` applied with the above
`stringify` and default config — lowercase the input, return all options
when the input is empty, else keep the options whose lowercased
stringification contains the input. -/
def abFilterOptions (options : List ABOption) (inputValue : String) : List ABOption :=
  let input := jsToLower inputValue
  if input = "" then options
  else options.filter (fun o => jsIncludes (jsToLower (abStringify o)) input)

/-- `hasVisibleOptions`: `!!entries.filter((e) => e.label.includes(addressValue)).length`. -/
def hasVisibleOptions (entries : List ABOption) (addressValue : String) : Bool :=
  !((entries.filter (fun e => jsIncludes e.label addressValue)).length == 0)

/-- What `AddressBookInput` renders, as far as the claims are concerned. -/
structure ABRender where
  suggestions : List ABOption
  openListAffordance : Bool
  unknownAddressShown : Bool
  dialogDefaultName : String
  dialogDefaultAddress : String
deriving DecidableEq, Repr

/-- The render of `AddressBookInput`: suggestions via `abFilterOptions`,
the open-suggestion-list affordance via `hasVisibleOptions`, the
"unknown address" block shown under `{canAdd ? (...) : null}`, and the
`EntryDialog` defaults `{ name: '', address: addressValue }`. -/
def renderAddressBookInput (canAdd : Bool) (entries : List ABOption)
    (addressValue : String) : ABRender :=
  { suggestions := abFilterOptions entries addressValue
    openListAffordance := hasVisibleOptions entries addressValue
    unknownAddressShown := canAdd
    dialogDefaultName := ""
    dialogDefaultAddress := addressValue }

/-- The claim's suggestion predicate, stated from the spec's words: the
concatenation of address and name contains the typed substring. -/
def specSuggestionMatches (o : ABOption) (typed : String) : Bool :=
  jsIncludes (o.label ++ o.name) typed

/-- The claim's visibility predicate for the "unknown address" affordance,
stated from the spec's words: the consumer allows adding entries and the
typed value has no match in the address book (no entry's address equals
it). -/
def specUnknownAddressShown (canAdd : Bool) (entries : List ABOption)
    (typed : String) : Bool :=
  canAdd && !(entries.any (fun e => e.label == typed))

/-- C5 counterexample: with the single entry `(address "X", name "n")` and
typed value `"Xn"`, the concatenation address+name contains the typed
substring, yet the filtered suggestion set is empty (the code matches
against `name + ' ' + address`, lowercased). -/
theorem ab_filter_counterexample :
    specSuggestionMatches ⟨"X", "n"⟩ "Xn" = true ∧
    abFilterOptions [⟨"X", "n"⟩] "Xn" = [] := by
  constructor
  · decide
  · decide

/-- C5 (amended): the filtered suggestion set contains exactly the entries
whose `name + ' ' + address`, compared case-insensitively, contains the
typed substring. -/
theorem ab_filter_exact (options : List ABOption) (inputValue : String)
    (o : ABOption) :
    o ∈ abFilterOptions options inputValue ↔
      o ∈ options ∧
        jsIncludes (jsToLower (abStringify o)) (jsToLower inputValue) = true := by
  rw [abFilterOptions]
  by_cases h : jsToLower inputValue = ""
  · rw [h]
    simp [jsIncludes_empty_right]
  · simp [h, List.mem_filter]

/-- C10: the open-suggestion-list affordance is offered exactly when some
entry's address contains the typed value; entry names play no role. -/
theorem open_list_affordance_matches_addresses_only (canAdd : Bool)
    (entries : List ABOption) (addressValue : String) :
    (renderAddressBookInput canAdd entries addressValue).openListAffordance = true ↔
      ∃ e ∈ entries, jsIncludes e.label addressValue = true := by
  simp only [renderAddressBookInput, hasVisibleOptions, Bool.not_eq_true',
    beq_eq_false_iff_ne, ne_eq, List.length_eq_zero]
  constructor
  · intro h
    rcases List.exists_mem_of_ne_nil _ h with ⟨e, he⟩
    rcases List.mem_filter.mp he with ⟨hmem, hp⟩
    exact ⟨e, hmem, hp⟩
  · intro ⟨e, hmem, hp⟩
    intro hnil
    have : e ∈ List.filter (fun e => jsIncludes e.label addressValue) entries :=
      List.mem_filter.mpr ⟨hmem, hp⟩
    rw [hnil] at this
    exact absurd this (List.not_mem_nil e)

/-- C6 counterexample: with `canAdd` and a typed value equal to a stored
address (so the value has a match), the claim says the "unknown address"
affordance is hidden, but the component shows it: the render only tests
`canAdd`. -/
theorem unknown_address_counterexample :
    (renderAddressBookInput true [⟨"0xabc", "Alice"⟩] "0xabc").unknownAddressShown = true ∧
    specUnknownAddressShown true [⟨"0xabc", "Alice"⟩] "0xabc" = false := by
  constructor
  · rfl
  · decide

/-- C6 (amended): the "unknown address" affordance is shown exactly when
`canAdd`, independently of the address book and the typed value; activating
it opens the entry dialog pre-filled with the typed address and an empty
name. -/
theorem unknown_address_shown_iff_canAdd (canAdd : Bool)
    (entries entries' : List ABOption) (v v' : String) :
    (renderAddressBookInput canAdd entries v).unknownAddressShown = canAdd ∧
    (renderAddressBookInput canAdd entries v).unknownAddressShown
      = (renderAddressBookInput canAdd entries' v').unknownAddressShown ∧
    (renderAddressBookInput canAdd entries v).dialogDefaultAddress = v ∧
    (renderAddressBookInput canAdd entries v).dialogDefaultName = "" :=
  ⟨rfl, rfl, rfl, rfl⟩

/-! ## Sidebar navigation (`Navigation`)

Source: part_004. `getRoute` routes the Transactions item to Queue when
there are queued or recovery transactions, otherwise keeps the href. -/

/-- `AppRoutes.transactions.history`. -/
def historyRoute : String := "/transactions/history"

/-- `AppRoutes.transactions.queue`. -/
def queueRoute : String := "/transactions/queue"

/-- `Boolean(useTxQueue().page?.results.length)`. -/
def hasQueuedTxs {α : Type} (page : Option (List α)) : Bool :=
  match page with
  | none => false
  | some results => !(results.length == 0)

/-- `Boolean(useRecoveryQueue().length)`. -/
def hasRecoveryTxs {α : Type} (queue : List α) : Bool := !(queue.length == 0)

/-- `getRoute` from `Navigation`: rewrite the history href to the queue
route when either queue is non-empty. -/
def getRoute (hasQueued hasRecovery : Bool) (href : String) : String :=
  if href == historyRoute && (hasQueued || hasRecovery) then queueRoute else href

/-- C7: the history item resolves to the queue route when either queue is
non-empty; with both empty, and for any other href, the target is the
original href. -/
theorem nav_getRoute_spec {α β : Type} (page : Option (List α))
    (recovery : List β) (href : String) :
    (href = historyRoute → (hasQueuedTxs page || hasRecoveryTxs recovery) = true →
      getRoute (hasQueuedTxs page) (hasRecoveryTxs recovery) href = queueRoute) ∧
    (hasQueuedTxs page = false → hasRecoveryTxs recovery = false →
      getRoute (hasQueuedTxs page) (hasRecoveryTxs recovery) href = href) ∧
    (href ≠ historyRoute → getRoute (hasQueuedTxs page) (hasRecoveryTxs recovery) href = href) := by
  refine ⟨?_, ?_, ?_⟩
  · intro h1 h2
    subst h1
    simp [getRoute, h2]
  · intro h1 h2
    simp [getRoute, h1, h2]
  · intro h
    simp [getRoute, h]

/-- Witness for C7: one queued transaction routes history to queue; with
both queues empty the history target is unchanged. -/
theorem nav_getRoute_witness :
    getRoute (hasQueuedTxs (some [0])) (hasRecoveryTxs ([] : List Nat)) historyRoute = queueRoute ∧
    getRoute (hasQueuedTxs (none : Option (List Nat))) (hasRecoveryTxs ([] : List Nat)) historyRoute
      = historyRoute := by
  constructor
  · exact (nav_getRoute_spec (some [0]) ([] : List Nat) historyRoute).1 rfl (by decide)
  · exact (nav_getRoute_spec (none : Option (List Nat)) ([] : List Nat) historyRoute).2.1 rfl rfl

/-! ## Transaction sign form (`SignForm`)

Source: `SignForm.tsx`. Local state `isSubmittable`/`submitError`; guard
`cannotPropose = !isOwner`; `handleSubmit` awaits `signTx` and either
closes the tx-flow modal and calls `onSubmit`, or logs error 804, restores
submittability and stores the error. The submit button is `disabled`
whenever `!isOk || submitDisabled`, so a submit attempt only goes through
when the button is enabled. -/

/-- An error rejected by the signing action. -/
structure SignError where
  message : String
deriving DecidableEq, Repr

/-- An opaque `SafeTransaction` payload. -/
structure SafeTx where
  payload : Nat
deriving DecidableEq, Repr

/-- `SignForm`'s `useState` pieces. -/
structure SignFormState where
  isSubmittable : Bool
  submitError : Option SignError
deriving DecidableEq, Repr

/-- Props and hook results the form reads: `safeTx`, `disableSubmit`,
`useIsSafeOwner()` and `CheckWallet`'s `isOk`. -/
structure SignFormEnv where
  safeTx : Option SafeTx
  disableSubmit : Bool
  isOwner : Bool
  walletCheckOk : Bool
deriving DecidableEq, Repr

/-- `useState(true)` / `useState(undefined)`. -/
def initialSignFormState : SignFormState := ⟨true, none⟩

/-- `const cannotPropose = !isOwner`. -/
def cannotPropose (env : SignFormEnv) : Bool := !env.isOwner

/-- `const submitDisabled = !safeTx || !isSubmittable || disableSubmit || cannotPropose`. -/
def submitDisabled (env : SignFormEnv) (s : SignFormState) : Bool :=
  env.safeTx.isNone || !s.isSubmittable || env.disableSubmit || cannotPropose env

/-- The submit button's `disabled={!isOk || submitDisabled}`. -/
def submitButtonDisabled (env : SignFormEnv) (s : SignFormState) : Bool :=
  !env.walletCheckOk || submitDisabled env s

/-- The error block rendered by the form. -/
inductive SignFormMessage
  | notAnOwner
  | submitFailed (e : SignError)
deriving DecidableEq, Repr

/-- `{isSubmittable && cannotPropose ? <not-an-owner/> : submitError && <error/>}`. -/
def renderedMessage (env : SignFormEnv) (s : SignFormState) : Option SignFormMessage :=
  if s.isSubmittable && cannotPropose env then some SignFormMessage.notAnOwner
  else
    match s.submitError with
    | some e => some (SignFormMessage.submitFailed e)
    | none => none

/-- Observable calls made by `handleSubmit`, in order. -/
inductive SignFormAction
  | signTxCall
  | logError804
  | closeTxFlow
  | onSubmitCallback
deriving DecidableEq, Repr

/-- The state right after `setIsSubmittable(false); setSubmitError(undefined)`
at the top of `handleSubmit`. -/
def preSubmitState (_s : SignFormState) : SignFormState := ⟨false, none⟩

/-- `handleSubmit`, indexed by the outcome of `await signTx(...)`: on
rejection, log the categorized error, restore submittability and store the
error, without calling `onSubmit`; on success, `setTxFlow(undefined)` and
then `onSubmit()`. -/
def handleSubmit (s : SignFormState) (signResult : Except SignError Unit) :
    SignFormState × List SignFormAction :=
  let s1 := preSubmitState s
  match signResult with
  | Except.error e =>
    ({ s1 with isSubmittable := true, submitError := some e },
      [SignFormAction.signTxCall, SignFormAction.logError804])
  | Except.ok _ =>
    (s1, [SignFormAction.signTxCall, SignFormAction.closeTxFlow,
      SignFormAction.onSubmitCallback])

/-- One user submit attempt: the form's only submit trigger is its submit
button, so a disabled button means no `handleSubmit` invocation. -/
def signFormStep (env : SignFormEnv) (s : SignFormState)
    (signResult : Except SignError Unit) : SignFormState × List SignFormAction :=
  if submitButtonDisabled env s then (s, []) else handleSubmit s signResult

/-- A run of submit attempts against the form, collecting all actions. -/
def signFormRun (env : SignFormEnv) (s : SignFormState) :
    List (Except SignError Unit) → SignFormState × List SignFormAction
  | [] => (s, [])
  | r :: rs =>
    let stp := signFormStep env s r
    let rest := signFormRun env stp.1 rs
    (rest.1, stp.2 ++ rest.2)

/-- C1: while the active account is not an owner, `cannotPropose` holds and
disables submission in every state, no run of submit attempts produces any
action — in particular `signTx` is never called — and the form shows the
not-an-owner message. -/
theorem signForm_nonOwner_blocked (env : SignFormEnv)
    (attempts : List (Except SignError Unit)) (h : env.isOwner = false) :
    cannotPropose env = true ∧
    (∀ s : SignFormState, submitDisabled env s = true) ∧
    (signFormRun env initialSignFormState attempts).2 = [] ∧
    SignFormAction.signTxCall ∉ (signFormRun env initialSignFormState attempts).2 ∧
    renderedMessage env (signFormRun env initialSignFormState attempts).1
      = some SignFormMessage.notAnOwner := by
  have hcp : cannotPropose env = true := by simp [cannotPropose, h]
  have hsd : ∀ s : SignFormState, submitDisabled env s = true := by
    intro s
    simp [submitDisabled, hcp]
  have hrun : ∀ s (atts : List (Except SignError Unit)), signFormRun env s atts = (s, []) := by
    intro s atts
    induction atts generalizing s with
    | nil => rfl
    | cons r rs ih =>
      simp [signFormRun, signFormStep, submitButtonDisabled, hsd, ih]
  refine ⟨hcp, hsd, ?_, ?_, ?_⟩
  · rw [hrun]
  · rw [hrun]
    exact List.not_mem_nil _
  · rw [hrun]
    simp [renderedMessage, initialSignFormState, hcp]

/-- Witness for C1: a non-owner environment with a built transaction, a
connected wallet and one attempted submission produces no action. -/
theorem signForm_nonOwner_witness :
    (signFormRun ⟨some ⟨0⟩, false, false, true⟩ initialSignFormState [Except.ok ()]).2 = [] :=
  (signForm_nonOwner_blocked ⟨some ⟨0⟩, false, false, true⟩ [Except.ok ()] rfl).2.2.1

/-- C9: `handleSubmit` first disables submission and clears the prior
error; on rejection it logs the categorized error, restores submittability,
surfaces the error (for an owner, the rendered message is the submit
error), and never calls `onSubmit`; on success it closes the tx flow and
then calls `onSubmit`. -/
theorem signForm_handleSubmit_spec (s : SignFormState) :
    (preSubmitState s).isSubmittable = false ∧
    (preSubmitState s).submitError = none ∧
    (∀ e : SignError, ∀ env : SignFormEnv, env.isOwner = true →
      handleSubmit s (Except.error e)
        = (⟨true, some e⟩, [SignFormAction.signTxCall, SignFormAction.logError804]) ∧
      SignFormAction.onSubmitCallback ∉ (handleSubmit s (Except.error e)).2 ∧
      (handleSubmit s (Except.error e)).1.isSubmittable = true ∧
      renderedMessage env (handleSubmit s (Except.error e)).1
        = some (SignFormMessage.submitFailed e)) ∧
    handleSubmit s (Except.ok ())
      = (⟨false, none⟩, [SignFormAction.signTxCall, SignFormAction.closeTxFlow,
          SignFormAction.onSubmitCallback]) := by
  refine ⟨rfl, rfl, ?_, rfl⟩
  intro e env henv
  refine ⟨rfl, ?_, rfl, ?_⟩
  · simp [handleSubmit, preSubmitState]
  · simp [handleSubmit, preSubmitState, renderedMessage, cannotPropose, henv]

/-- Witness for C9: a failed signing at the initial state logs and stores
the error and re-enables submission. -/
theorem signForm_handleSubmit_witness :
    handleSubmit initialSignFormState (Except.error ⟨"boom"⟩)
      = (⟨true, some ⟨"boom"⟩⟩, [SignFormAction.signTxCall, SignFormAction.logError804]) :=
  ((signForm_handleSubmit_spec initialSignFormState).2.2.1 ⟨"boom"⟩
    ⟨some ⟨0⟩, false, true, true⟩ rfl).1

/-! ## Owner-change review (`ReviewOwner`)

Source: part_002 (second file). The effect builds `createSwapOwnerTx({
newOwnerAddress, oldOwnerAddress })` when `removedOwner` is present, else
`createAddOwnerTx({ ownerAddress, threshold })`, and dispatches the
promise with `promise.then(setSafeTx).catch(setSafeTxError)`. -/

/-- An owner as carried in the flow params. -/
structure OwnerEntry where
  address : String
  name : Option String
deriving DecidableEq, Repr

/-- The flow params read by `ReviewOwner`. -/
structure ReviewOwnerParams where
  newOwner : OwnerEntry
  removedOwner : Option OwnerEntry
  threshold : Nat
deriving DecidableEq, Repr

/-- A transaction-builder call together with its arguments. -/
inductive TxBuildRequest
  | swapOwner (newOwnerAddress oldOwnerAddress : String)
  | addOwner (ownerAddress : String) (threshold : Nat)
deriving DecidableEq, Repr

/-- The builder call selected by `ReviewOwner`'s effect for the current
`removedOwner`/`newOwner`/`threshold` inputs. -/
def reviewOwnerBuildRequest (p : ReviewOwnerParams) : TxBuildRequest :=
  match p.removedOwner with
  | some removed => TxBuildRequest.swapOwner p.newOwner.address removed.address
  | none => TxBuildRequest.addOwner p.newOwner.address p.threshold

/-- The shared `SafeTxContext` pieces the effect writes. -/
structure SafeTxContextState (τ ε : Type) where
  safeTx : Option τ
  safeTxError : Option ε
deriving Repr

/-- `promise.then(setSafeTx).catch(setSafeTxError)`: a resolved build
populates the pending-transaction context, a rejected one the error
context. -/
def applyBuildOutcome {τ ε : Type} (ctx : SafeTxContextState τ ε)
    (outcome : Except ε τ) : SafeTxContextState τ ε :=
  match outcome with
  | Except.ok tx => { ctx with safeTx := some tx }
  | Except.error e => { ctx with safeTxError := some e }

/-- C8: a present removed owner yields a swap-owner build with the new and
old addresses, otherwise an add-owner build with the new address and the
threshold; a successful build populates `safeTx`, a failed one
`safeTxError`. -/
theorem reviewOwner_build_spec {τ ε : Type} (p : ReviewOwnerParams)
    (ctx : SafeTxContextState τ ε) :
    (∀ removed, p.removedOwner = some removed →
      reviewOwnerBuildRequest p
        = TxBuildRequest.swapOwner p.newOwner.address removed.address) ∧
    (p.removedOwner = none →
      reviewOwnerBuildRequest p
        = TxBuildRequest.addOwner p.newOwner.address p.threshold) ∧
    (∀ tx : τ, applyBuildOutcome ctx (Except.ok tx) = { ctx with safeTx := some tx }) ∧
    (∀ e : ε, applyBuildOutcome ctx (Except.error e) = { ctx with safeTxError := some e }) := by
  refine ⟨?_, ?_, fun tx => rfl, fun e => rfl⟩
  · intro removed h
    simp [reviewOwnerBuildRequest, h]
  · intro h
    simp [reviewOwnerBuildRequest, h]

/-- Witness for C8: a concrete swap build and a concrete resolved build. -/
theorem reviewOwner_build_witness :
    reviewOwnerBuildRequest ⟨⟨"0xnew", none⟩, some ⟨"0xold", none⟩, 2⟩
      = TxBuildRequest.swapOwner "0xnew" "0xold" ∧
    applyBuildOutcome (⟨none, none⟩ : SafeTxContextState Nat String) (Except.ok 7)
      = ⟨some 7, none⟩ := by
  constructor
  · exact (reviewOwner_build_spec ⟨⟨"0xnew", none⟩, some ⟨"0xold", none⟩, 2⟩
      (⟨none, none⟩ : SafeTxContextState Nat String)).1 ⟨"0xold", none⟩ rfl
  · exact (reviewOwner_build_spec ⟨⟨"0xnew", none⟩, some ⟨"0xold", none⟩, 2⟩
      (⟨none, none⟩ : SafeTxContextState Nat String)).2.2.1 7

/-! ## Social/MPC login orchestration (`SocialWalletService`)

The service implementation is not part of the excerpt; only its test file
is. The definitions below are modelled from the spec (§4.7 state machine
and recovery contract) together with the expectations the test states. -/

/-- The MPC SDK's status enum (`COREKIT_STATUS`), as used by the excerpt. -/
inductive COREKIT_STATUS
  | NOT_INITIALIZED
  | INITIALIZED
  | REQUIRED_SHARE
  | LOGGED_IN
deriving DecidableEq, Repr

/-- The application-level wallet state enum (`MPCWalletState`). -/
inductive MPCWalletState
  | NOT_INITIALIZED
  | AUTHENTICATING
  | MANUAL_RECOVERY
  | READY
deriving DecidableEq, Repr

/-- Outcome of the login orchestration: the settled wallet state, the
status returned to the caller, and how often the connected callback and
`commitChanges` ran. -/
structure LoginOutcome where
  walletState : MPCWalletState
  returnedStatus : COREKIT_STATUS
  connectCalls : Nat
  commitCalls : Nat
deriving DecidableEq, Repr

/-- Modelled from the spec: `SocialWalletService.loginAndCreate` (the
service source is missing from the excerpt). After the OAuth login the SDK
reports a status: `LOGGED_IN` finalizes to READY with one connected
callback and one `commitChanges`; `REQUIRED_SHARE` first attempts
device-share recovery (`getWebBrowserFactor`) — a found factor matching
the expected recovery key finalizes to READY likewise, while a missing or
non-matching factor settles in MANUAL_RECOVERY with the `REQUIRED_SHARE`
status returned and neither callback nor commit; any other status settles
unconnected. -/
def loginAndCreate (statusAfterLogin : COREKIT_STATUS)
    (deviceFactor : Option Nat) (expectedFactorKey : Nat) : LoginOutcome :=
  match statusAfterLogin with
  | COREKIT_STATUS.LOGGED_IN =>
    ⟨MPCWalletState.READY, COREKIT_STATUS.LOGGED_IN, 1, 1⟩
  | COREKIT_STATUS.REQUIRED_SHARE =>
    match deviceFactor with
    | some key =>
      if key == expectedFactorKey then
        ⟨MPCWalletState.READY, COREKIT_STATUS.LOGGED_IN, 1, 1⟩
      else
        ⟨MPCWalletState.MANUAL_RECOVERY, COREKIT_STATUS.REQUIRED_SHARE, 0, 0⟩
    | none => ⟨MPCWalletState.MANUAL_RECOVERY, COREKIT_STATUS.REQUIRED_SHARE, 0, 0⟩
  | s => ⟨MPCWalletState.AUTHENTICATING, s, 0, 0⟩

/-- C2: `REQUIRED_SHARE` after login with no device factor settles in
MANUAL_RECOVERY, returns the `REQUIRED_SHARE` status, and neither the
connected callback nor `commitChanges` is ever called. -/
theorem loginAndCreate_required_share_no_device (expectedFactorKey : Nat) :
    (loginAndCreate COREKIT_STATUS.REQUIRED_SHARE none expectedFactorKey).walletState
      = MPCWalletState.MANUAL_RECOVERY ∧
    (loginAndCreate COREKIT_STATUS.REQUIRED_SHARE none expectedFactorKey).returnedStatus
      = COREKIT_STATUS.REQUIRED_SHARE ∧
    (loginAndCreate COREKIT_STATUS.REQUIRED_SHARE none expectedFactorKey).connectCalls = 0 ∧
    (loginAndCreate COREKIT_STATUS.REQUIRED_SHARE none expectedFactorKey).commitCalls = 0 :=
  ⟨rfl, rfl, rfl, rfl⟩

/-- An error thrown by the security-question mechanism. -/
structure RecoveryError where
  message : String
deriving DecidableEq, Repr

/-- Outcome of a password-based factor recovery. -/
structure RecoveryOutcome where
  result : Except RecoveryError Unit
  walletState : MPCWalletState
  connectCalls : Nat
  commitCalls : Nat
deriving Repr

/-- Modelled from the spec: `SocialWalletService.recoverAccountWithPassword`
(the service source is missing from the excerpt). It derives a candidate
factor key from the password via the security-question mechanism's
`recoverFactor`; on a wrong answer the mechanism throws and the returned
promise rejects with that error, with no state change, no connected
callback and no `commitChanges`; on a correct answer the key is submitted
to the SDK, the session committed and the connected callback fired, the
state becoming READY. -/
def recoverAccountWithPassword (recoverFactor : String → Except RecoveryError Nat)
    (current : MPCWalletState) (password : String) : RecoveryOutcome :=
  match recoverFactor password with
  | Except.error e => ⟨Except.error e, current, 0, 0⟩
  | Except.ok _ => ⟨Except.ok (), MPCWalletState.READY, 1, 1⟩

/-- C3: when the security-question mechanism rejects the answer, password
recovery rejects with that same error, leaves the wallet state unchanged,
and calls neither the connected callback nor the session commit. -/
theorem recoverWithPassword_wrong_answer
    (recoverFactor : String → Except RecoveryError Nat) (current : MPCWalletState)
    (password : String) (e : RecoveryError)
    (h : recoverFactor password = Except.error e) :
    (recoverAccountWithPassword recoverFactor current password).result = Except.error e ∧
    (recoverAccountWithPassword recoverFactor current password).walletState = current ∧
    (recoverAccountWithPassword recoverFactor current password).connectCalls = 0 ∧
    (recoverAccountWithPassword recoverFactor current password).commitCalls = 0 := by
  simp [recoverAccountWithPassword, h]

/-- Witness for C3: a mechanism that always answers "Invalid answer". -/
theorem recoverWithPassword_wrong_answer_witness :
    (recoverAccountWithPassword (fun _ => Except.error ⟨"Invalid answer"⟩)
        MPCWalletState.MANUAL_RECOVERY "test").result
      = Except.error ⟨"Invalid answer"⟩ :=
  (recoverWithPassword_wrong_answer (fun _ => Except.error ⟨"Invalid answer"⟩)
    MPCWalletState.MANUAL_RECOVERY "test" ⟨"Invalid answer"⟩ rfl).1
